import Mathlib

/-!
Shallow embedding of the SimplePush connection core
(`simplepush/worker.go` and `simplepush/net.go`): the per-connection
Worker command handlers, the ping-frame classifier, and the
connection-limiting listener.  External collaborators (Store, Router,
Application, the `id` package) are modelled as parameters of the
handler functions, matching the interfaces they expose to this code.
-/

namespace Pushgo

/-- Error taxonomy of the worker (`Err*` values in the source).
`otherError` stands for an opaque Store or Router error value. -/
inductive WError where
  | unknownCommand
  | invalidCommand
  | invalidParams
  | noParams
  | invalidID
  | existingID
  | badPayload
  | tooManyPings
  | otherError (n : Nat)
deriving DecidableEq, Repr

/-- Worker protocol states (`WorkerState` constants in worker.go). -/
inductive WorkerState where
  | WorkerInactive
  | WorkerActive
deriving DecidableEq, Repr

/-- Outbound frames a handler can send on the socket
(`RegisterReply`, `UnregisterReply`, `PingReply`, and the raw
two-byte empty-object message). -/
inductive Reply where
  | RegisterReply (msgType uaid : String) (status : Nat) (channelID endpoint : String)
  | UnregisterReply (msgType : String) (status : Nat) (channelID : String)
  | PingReply (msgType : String) (status : Nat)
  | EmptyObject
deriving DecidableEq, Repr

/-- Result of a handler invocation: the reply frame written to the
socket, if any, and the error returned to the dispatch loop, if any. -/
structure HandlerOut where
  reply : Option Reply
  error : Option WError
deriving DecidableEq, Repr

/-! ## Frame classifier (`isPingBody`, worker.go lines 678-703)

Bytes are modelled as natural numbers; the relevant byte values are
123 for a left brace, 125 for a right brace, and 9, 13, 10, 32 for
the whitespace set. -/

/-- Bytes permitted by the slow path of `isPingBody`: the two brace
bytes and the whitespace set tab, CR, LF, space. -/
def pingBodyByteOk (b : Nat) : Bool :=
  b = 123 || b = 125 || b = 9 || b = 13 || b = 10 || b = 32

/-- The byte scan of `isPingBody`: `none` when a byte outside the
permitted set occurs (the source returns `(false, nil)` there);
otherwise the pair of left-brace and right-brace counts. -/
def countBraces : List Nat → Option (Nat × Nat)
  | [] => some (0, 0)
  | b :: rest =>
    if b = 123 then (countBraces rest).map fun p => (p.1 + 1, p.2)
    else if b = 125 then (countBraces rest).map fun p => (p.1, p.2 + 1)
    else if b = 9 || b = 13 || b = 10 || b = 32 then countBraces rest
    else none

/-- `isPingBody` from worker.go: classifies a raw frame as an implicit
ping (`true`) or a frame to be parsed as a command (`false`), with
`badPayload` for frames of braces and whitespace that are not a single
balanced object. -/
def isPingBody (raw : List Nat) : Bool × Option WError :=
  if raw.length < 2 ∨ (raw.length = 2 ∧ raw[0]? = some 123 ∧ raw[1]? = some 125) then
    (true, none)
  else
    match countBraces raw with
    | none => (false, none)
    | some (l, r) =>
      if l ≤ 1 ∧ l = r then (true, none)
      else (false, some .badPayload)

/-! ## LimitListener (net.go) -/

/-- `ListenerError` from net.go: a message plus the temporary bit. -/
structure ListenerError where
  message : String
  isTemporary : Bool
deriving DecidableEq, Repr

/-- Temporary error returned when too many connections are open. -/
def errTooBusy : ListenerError := ⟨"Too many requests", true⟩

/-- Permanent error returned once the listener is closed. -/
def errClosed : ListenerError := ⟨"Listener closed", false⟩

/-- State of the one-shot `removeOnce` latch inside a `limitConn`:
`removeDone` records whether `removeOnce.Do` has already run. -/
structure LimitConn where
  removeDone : Bool
deriving DecidableEq, Repr

/-- State of a `LimitListener`: the connection ceiling, the atomic
active-connection counter, and whether `closeOnce` has been observed
as done (`closeOnce.IsDone()`). -/
structure LimitListener where
  maxConns : Int
  conns : Int
  closeDone : Bool
deriving DecidableEq, Repr

/-- `LimitListener.ConnCount`. -/
def LimitListener.connCount (l : LimitListener) : Int := l.conns

/-- `LimitListener.addConn`: atomic increment of the counter. -/
def LimitListener.addConn (l : LimitListener) : LimitListener :=
  { l with conns := l.conns + 1 }

/-- `LimitListener.removeConn`: atomic decrement of the counter. -/
def LimitListener.removeConn (l : LimitListener) : LimitListener :=
  { l with conns := l.conns - 1 }

/-- What `Accept` returned: a freshly wrapped connection, a
`ListenerError`, or the error of the underlying listener
(modelled opaquely by a number). -/
inductive AcceptOutcome where
  | ok (c : LimitConn)
  | err (e : ListenerError)
  | underlyingErr (n : Nat)
deriving DecidableEq, Repr

/-- Full result of one `Accept` call: the outcome, the listener state
afterwards, and whether the underlying listener's `Accept` was
invoked at all. -/
structure AcceptResult where
  outcome : AcceptOutcome
  state : LimitListener
  underlyingCalled : Bool
deriving DecidableEq, Repr

/-- `LimitListener.Accept` (net.go lines 166-182).  The result of the
underlying listener's `Accept`, when it is reached, is supplied as the
`underlying` argument.  On success the socket is wrapped in a
`limitConn` whose `removeOnce` latch is fresh. -/
def LimitListener.accept (l : LimitListener) (underlying : Except Nat Unit) : AcceptResult :=
  if l.closeDone then ⟨.err errClosed, l, false⟩
  else if l.maxConns ≤ l.connCount then ⟨.err errTooBusy, l, false⟩
  else
    match underlying with
    | .error e => ⟨.underlyingErr e, l, true⟩
    | .ok _ => ⟨.ok ⟨false⟩, l.addConn, true⟩

/-- `limitConn.Close` (net.go lines 121-125): closes the wrapped
socket and runs `removeOnce.Do(removeConn)`.  The boolean reports
whether `removeConn` ran (i.e. whether the count was decremented) on
this call. -/
def LimitConn.close (c : LimitConn) : LimitConn × Bool :=
  (⟨true⟩, !c.removeDone)

/-- Total number of `removeConn` invocations (count decrements)
performed by `n` successive `Close` calls on connection `c`. -/
def closeDecrements : Nat → LimitConn → Nat
  | 0, _ => 0
  | n + 1, c => (if c.removeDone then 0 else 1) + closeDecrements n (c.close).1

/-! ## Worker construction (`NewWorker`, worker.go lines 93-105) -/

/-- The configuration values `NewWorker` reads from the `Application`
and its `Store`. -/
structure AppConfig where
  clientMinPing : Int
  clientHelloTimeout : Int
  storeMaxChannels : Nat
deriving DecidableEq, Repr

/-- The fields of a `Worker` set by `NewWorker`.  `lastPing = none`
models the zero `time.Time`. -/
structure Worker where
  id : String
  state : WorkerState
  stopped : Bool
  lastPing : Option Int
  pingInt : Int
  maxChannels : Nat
  helloTimeout : Int
deriving DecidableEq, Repr

/-- `NewWorker` from worker.go: builds the per-connection worker.
Note the source assigns `state: WorkerActive` at construction. -/
def NewWorker (app : AppConfig) (workerId : String) : Worker :=
  { id := workerId
    state := .WorkerActive
    stopped := false
    lastPing := none
    pingInt := app.clientMinPing
    maxChannels := app.storeMaxChannels
    helloTimeout := app.clientHelloTimeout }

/-! ## hello handler (`Worker.Hello`, worker.go lines 266-418)

The collaborators used by `Hello` — `Store.Exists`, `Store.DropAll`,
`Application.ClientExists`, `id.Valid`, `id.Generate`, the Router's
`HandleCommand`, and the socket write — are parameters gathered in
`HelloEnv`.  `id.Generate` is modelled as its returned pair: the
generated identifier and whether an error was returned alongside it
(the source discards the error with a blank identifier). -/

/-- The decoded `HelloRequest`: `uaid` is a string pointer (`none` =
field absent), `channelIDs` an optional array (`none` = field
absent). -/
structure HelloRequest where
  deviceID : Option String
  channelIDs : Option (List String)
deriving DecidableEq, Repr

/-- Environment of one `Hello` invocation. -/
structure HelloEnv where
  storeExists : String → Bool
  clientExists : String → Bool
  idValid : String → Bool
  gen : String × Bool
  maxChannels : Nat
  helloStatus : Int
  writeOk : Bool

/-- Observable effects of a `Hello` call that reached the
`registerDevice` label: the computed `forceReset`, whether
`Store.DropAll` ran, the final `sock.Uaid`, the blocking `HELLO`
command to the Router, the reply bytes, the state assignment, and
whether the trailing `Flush` was invoked (it is skipped when the
socket write fails). -/
structure HelloDone where
  forceReset : Bool
  droppedAll : Bool
  uaid : String
  routerNotified : Bool
  replyStatus : Int
  replyUaid : String
  stateAfter : WorkerState
  flushed : Bool
  writeFailed : Bool
deriving DecidableEq, Repr

/-- Result of `Hello`: an early error return, or the effects of the
`registerDevice` tail. -/
inductive HelloResult where
  | err (e : WError)
  | done (r : HelloDone)
deriving DecidableEq, Repr

/-- The `registerDevice` tail of `Hello` (worker.go lines 376-417):
on `forceReset` the device id is replaced by `id.Generate()`'s result
with the error discarded; the Router is informed; the reply is written
by a direct byte write; the state is set to `WorkerActive`; on a
successful write the handler finishes with a zero-cursor flush. -/
def registerDevice (env : HelloEnv) (curUaid : String) (forceReset droppedAll : Bool) :
    HelloResult :=
  .done
    { forceReset := forceReset
      droppedAll := droppedAll
      uaid := if forceReset then env.gen.1 else curUaid
      routerNotified := true
      replyStatus := env.helloStatus
      replyUaid := if forceReset then env.gen.1 else curUaid
      stateAfter := .WorkerActive
      flushed := env.writeOk
      writeFailed := !env.writeOk }

/-- `Worker.Hello`.  `sockUaid` is `sock.Uaid` on entry; `msg` is the
decoded request (`none` = `json.Unmarshal` failure).  Each branch
mirrors the source in order; in particular the nonexistent-id check of
line 367 queries `Store.Exists(sock.Uaid)`, not the suggested id. -/
def Hello (env : HelloEnv) (sockUaid : String) (msg : Option HelloRequest) : HelloResult :=
  match msg with
  | none => .err .invalidParams
  | some request =>
    match request.deviceID with
    | none => .err .invalidParams
    | some suggestedUAID =>
      match request.channelIDs with
      | none => .err .noParams
      | some chids =>
        if 0 < sockUaid.length then
          if suggestedUAID.length = 0 ∨ sockUaid = suggestedUAID then
            registerDevice env sockUaid false false
          else .err .existingID
        else if suggestedUAID.length = 0 then
          registerDevice env sockUaid true false
        else if env.idValid suggestedUAID = false then
          .err .invalidID
        else if env.clientExists suggestedUAID = true then
          registerDevice env sockUaid true false
        else if env.maxChannels < chids.length then
          registerDevice env sockUaid true true
        else if env.storeExists sockUaid = false ∧ 0 < chids.length then
          registerDevice env sockUaid true false
        else
          registerDevice env suggestedUAID false false

/-! ## register / unregister / ack / purge handlers -/

/-- The decoded `RegisterRequest`. -/
structure RegisterRequest where
  channelID : String
deriving DecidableEq, Repr

/-- Environment of one `Register` invocation: `id.Valid`, the result
of `Store.Register(uaid, chid, 0)`, and the Router's answer to the
`REGIS` command (`regisEndpoint` is `args["push.endpoint"]` when it is
a string). -/
structure RegisterEnv where
  idValid : String → Bool
  storeRegister : Option WError
  regisEndpoint : Option String

/-- `Worker.Register` (worker.go lines 469-524).  `msg` is the decoded
request (`none` = `json.Unmarshal` failure). -/
def Register (env : RegisterEnv) (sockUaid headerType : String)
    (msg : Option RegisterRequest) : HandlerOut :=
  if sockUaid = "" then ⟨none, some .invalidCommand⟩
  else
    match msg with
    | none => ⟨none, some .invalidParams⟩
    | some request =>
      if env.idValid request.channelID = false then ⟨none, some .invalidParams⟩
      else
        match env.storeRegister with
        | some e => ⟨none, some e⟩
        | none =>
          ⟨some (.RegisterReply headerType sockUaid 200 request.channelID
              ((env.regisEndpoint).getD "")), none⟩

/-- The decoded `UnregisterRequest`. -/
structure UnregisterRequest where
  channelID : String
deriving DecidableEq, Repr

/-- `Worker.Unregister` (worker.go lines 527-568).  `storeResult` is
what `Store.Unregister(uaid, chid)` returned; a store error is only
logged, the handler still replies with status 200 and returns nil. -/
def Unregister (storeResult : Option WError) (sockUaid headerType : String)
    (msg : Option UnregisterRequest) : HandlerOut :=
  if sockUaid = "" then ⟨none, some .invalidCommand⟩
  else
    match msg with
    | none => ⟨none, some .invalidParams⟩
    | some request =>
      if request.channelID.length = 0 then ⟨none, some .noParams⟩
      else ⟨some (.UnregisterReply headerType 200 request.channelID), none⟩

/-- The decoded `ACKRequest`: updates are `(channelID, version)`
pairs. -/
structure ACKRequest where
  updates : List (String × Nat)
  expired : List String
deriving DecidableEq, Repr

/-- Sequential `Store.Drop` calls over a list of channel ids,
stopping at the first error, as in the two loops of `Ack`. -/
def dropEach (drop : String → Option WError) : List String → Option WError
  | [] => none
  | c :: rest =>
    match drop c with
    | some e => some e
    | none => dropEach drop rest

/-- Result of `Worker.Ack`: an error return, or success, in which case
the handler finishes with a zero-cursor flush. -/
inductive AckResult where
  | err (e : WError)
  | flushInvoked
deriving DecidableEq, Repr

/-- `Worker.Ack` (worker.go lines 422-466).  `drop` is
`Store.Drop(uaid, ·)`; `msg` is the decoded request (`none` =
`json.Unmarshal` failure). -/
def Ack (drop : String → Option WError) (sockUaid : String)
    (msg : Option ACKRequest) : AckResult :=
  if sockUaid = "" then .err .invalidCommand
  else
    match msg with
    | none => .err .invalidParams
    | some request =>
      if request.updates.length = 0 then .err .noParams
      else
        match dropEach drop (request.updates.map Prod.fst) with
        | some e => .err e
        | none =>
          match dropEach drop request.expired with
          | some e => .err e
          | none => .flushInvoked

/-- `Worker.Purge` (worker.go lines 667-676): sends the two-byte `{}`
message and returns nil; the connection's device id is not consulted
(the parameter records that the result is independent of it). -/
def Purge (sockUaid : String) : HandlerOut :=
  ⟨some .EmptyObject, none⟩

/-! ## ping handler (`Worker.Ping`, worker.go lines 645-664)

Times are modelled as integers (nanoseconds); `lastPing = none` is the
zero `time.Time`, so `!lastPing.IsZero()` is `lastPing ≠ none`. -/

/-- The worker fields `Ping` reads and writes. -/
structure PingState where
  lastPing : Option Int
  stopped : Bool
deriving DecidableEq, Repr

/-- Result of one `Ping` call: updated worker fields, the reply frame
written, and the returned error. -/
structure PingResult where
  state : PingState
  reply : Option Reply
  error : Option WError
deriving DecidableEq, Repr

/-- The rate-limit test of `Ping`:
`pingInt > 0 && !lastPing.IsZero() && now.Sub(lastPing) < pingInt`. -/
def pingTooSoon (pingInt : Int) (lastPing : Option Int) (now : Int) : Bool :=
  0 < pingInt &&
    match lastPing with
    | none => false
    | some t => decide (now - t < pingInt)

/-- `Worker.Ping`: rejects with `tooManyPings` and sets the stopped
flag when pings arrive faster than `pingInt`; otherwise records the
ping time and replies with the long pong or the `{}` echo depending on
`pushLongPongs`. -/
def Ping (pingInt : Int) (longPongs : Bool) (headerType : String)
    (st : PingState) (now : Int) : PingResult :=
  if pingTooSoon pingInt st.lastPing now then
    ⟨{ st with stopped := true }, none, some .tooManyPings⟩
  else
    ⟨{ st with lastPing := some now },
      some (if longPongs then .PingReply headerType 200 else .EmptyObject), none⟩

/-! ## Theorems -/

/-- The rate-limit test holds exactly when the interval is positive, a
previous ping time is recorded, and the elapsed time is below the
interval. -/
theorem pingTooSoon_iff (pingInt : Int) (lp : Option Int) (now : Int) :
    pingTooSoon pingInt lp now = true ↔
      0 < pingInt ∧ ∃ t, lp = some t ∧ now - t < pingInt := by
  cases lp <;> simp [pingTooSoon]

/-- The byte scan returns the pair of brace counts when every byte is
permitted, and `none` as soon as any byte is not. -/
theorem countBraces_eq (raw : List Nat) :
    countBraces raw =
      if raw.all pingBodyByteOk then some (raw.count 123, raw.count 125) else none := by
  induction raw with
  | nil => rfl
  | cons b rest ih =>
    rw [countBraces]
    by_cases h1 : b = 123
    · subst h1
      rw [if_pos rfl, ih]
      by_cases hall : rest.all pingBodyByteOk
      · simp [hall, pingBodyByteOk, List.count_cons]
      · simp [hall, pingBodyByteOk]
    · by_cases h2 : b = 125
      · subst h2
        rw [if_neg (by decide), if_pos rfl, ih]
        by_cases hall : rest.all pingBodyByteOk
        · simp [hall, pingBodyByteOk, List.count_cons]
        · simp [hall, pingBodyByteOk]
      · by_cases h3 : b = 9 || b = 13 || b = 10 || b = 32
        · rw [if_neg h1, if_neg h2, if_pos h3, ih]
          have hok : pingBodyByteOk b = true := by
            simp only [pingBodyByteOk]
            simp only [Bool.or_eq_true, decide_eq_true_eq] at h3 ⊢
            tauto
          have hne123 : ¬ (123 = b) := fun h => h1 h.symm
          have hne125 : ¬ (125 = b) := fun h => h2 h.symm
          by_cases hall : rest.all pingBodyByteOk
          · simp [hall, hok, List.count_cons, hne123, hne125]
          · simp [hall, hok]
        · rw [if_neg h1, if_neg h2, if_neg h3]
          have hbad : pingBodyByteOk b = false := by
            simp only [pingBodyByteOk]
            simp only [Bool.or_eq_true, decide_eq_true_eq] at h3 ⊢
            simp only [Bool.or_eq_false_iff, decide_eq_false_iff_not]
            tauto
          simp [hbad]

/-- The fast-path test of `isPingBody` holds exactly for frames
shorter than two bytes or equal to the two-byte `\x7b\x7d`. -/
theorem isPingBody_fast_iff (raw : List Nat) :
    (raw.length < 2 ∨ (raw.length = 2 ∧ raw[0]? = some 123 ∧ raw[1]? = some 125)) ↔
      (raw.length < 2 ∨ raw = [123, 125]) := by
  match raw with
  | [] => simp
  | [a] => simp
  | [a, b] => simp
  | a :: b :: c :: rest =>
    apply iff_of_false
    · rintro (h | ⟨h, -, -⟩)
      · simp only [List.length_cons] at h
        omega
      · simp only [List.length_cons] at h
        omega
    · rintro (h | h)
      · simp only [List.length_cons] at h
        omega
      · simp at h

/-- Claim C6: the frame classifier returns ping for frames shorter
than two bytes or exactly the two-byte empty object; defers to the
command parser when any byte outside braces and whitespace occurs;
otherwise answers ping exactly when at most one left brace occurs and
the brace counts agree, and bad payload in the remaining cases. -/
theorem isPingBody_spec (raw : List Nat) :
    isPingBody raw =
      if raw.length < 2 ∨ raw = [123, 125] then (true, none)
      else if ∃ b ∈ raw, pingBodyByteOk b = false then (false, none)
      else if raw.count 123 ≤ 1 ∧ raw.count 123 = raw.count 125 then (true, none)
      else (false, some .badPayload) := by
  rw [isPingBody, if_congr (isPingBody_fast_iff raw) rfl rfl]
  by_cases hf : raw.length < 2 ∨ raw = [123, 125]
  · rw [if_pos hf, if_pos hf]
  · rw [if_neg hf, if_neg hf, countBraces_eq]
    by_cases hall : raw.all pingBodyByteOk
    · have hnone : ¬ ∃ b ∈ raw, pingBodyByteOk b = false := by
        simp only [List.all_eq_true] at hall
        rintro ⟨b, hb, hfalse⟩
        rw [hall b hb] at hfalse
        exact absurd hfalse (by decide)
      rw [if_pos hall, if_neg hnone]
    · have hex : ∃ b ∈ raw, pingBodyByteOk b = false := by
        simp only [List.all_eq_true, not_forall] at hall
        obtain ⟨b, hb, hfalse⟩ := hall
        exact ⟨b, hb, Bool.not_eq_true _ ▸ Bool.of_not_eq_true hfalse⟩
      rw [if_neg hall, if_pos hex]

/-- Claim C3 (code_bug): the claim and spec state that a newly created
Worker starts in the Inactive state, but `NewWorker` assigns
`state: WorkerActive` at construction (worker.go line 99).  This
evaluates the embedded constructor at a concrete input. -/
theorem newWorker_starts_active :
    (NewWorker ⟨0, 0, 200⟩ "w1").state = WorkerState.WorkerActive ∧
      WorkerState.WorkerActive ≠ WorkerState.WorkerInactive :=
  ⟨rfl, by decide⟩

/-- Claim C2, counterexample: `Purge` invoked on a connection with an
empty DeviceID does not fail with the invalid-command error; it sends
the `{}` reply and returns no error. -/
theorem purge_succeeds_without_device_id :
    Purge "" = ⟨some Reply.EmptyObject, none⟩ ∧
      (Purge "").error ≠ some WError.invalidCommand :=
  ⟨rfl, by decide⟩

/-- Claim C2, amended: with an empty DeviceID, `register`,
`unregister`, and `ack` fail with the invalid-command error and send
no reply; `purge` performs no DeviceID check and replies `{}` with no
error. -/
theorem pre_hello_commands_rejected (env : RegisterEnv) (headerType : String)
    (rmsg : Option RegisterRequest) (storeResult : Option WError)
    (umsg : Option UnregisterRequest) (drop : String → Option WError)
    (amsg : Option ACKRequest) :
    Register env "" headerType rmsg = ⟨none, some .invalidCommand⟩ ∧
      Unregister storeResult "" headerType umsg = ⟨none, some .invalidCommand⟩ ∧
      Ack drop "" amsg = .err .invalidCommand ∧
      Purge "" = ⟨some .EmptyObject, none⟩ :=
  ⟨rfl, rfl, rfl, rfl⟩

/-- Claim C8: with a bound DeviceID and a non-empty channelID,
`Unregister` replies with status 200 and returns no error whatever
`Store.Unregister` returned. -/
theorem unregister_always_replies_200 (storeResult : Option WError)
    (sockUaid headerType chid : String) (hu : sockUaid ≠ "") (hc : chid ≠ "") :
    Unregister storeResult sockUaid headerType (some ⟨chid⟩) =
      ⟨some (.UnregisterReply headerType 200 chid), none⟩ := by
  have hlen : chid.length ≠ 0 := by
    intro h
    exact hc (by cases chid with
      | mk l => cases l with
        | nil => rfl
        | cons a as => simp [String.length] at h)
  simp [Unregister, hu, hlen]

/-- Witness for claim C8 at a concrete input, with a failing store. -/
theorem unregister_always_replies_200_witness :
    Unregister (some (.otherError 7)) "u1" "unregister" (some ⟨"c1"⟩) =
      ⟨some (.UnregisterReply "unregister" 200 "c1"), none⟩ :=
  unregister_always_replies_200 (some (.otherError 7)) "u1" "unregister" "c1"
    (by decide) (by decide)

/-- Claim C10: during a forced reset the `registerDevice` tail assigns
the generator's result as the DeviceID regardless of the generator's
error bit `e`, notifies the Router, writes the hello reply carrying
that id, sets the state to Active, and flushes when the write
succeeds; and `Hello` reaches that tail on the empty-suggested-id
reset path. -/
theorem hello_reset_discards_generate_error (env : HelloEnv) (g : String) (e : Bool)
    (curUaid : String) (droppedAll : Bool) (chids : List String) :
    registerDevice { env with gen := (g, e) } curUaid true droppedAll =
      .done { forceReset := true, droppedAll := droppedAll, uaid := g,
              routerNotified := true, replyStatus := env.helloStatus, replyUaid := g,
              stateAfter := .WorkerActive, flushed := env.writeOk,
              writeFailed := !env.writeOk } ∧
      Hello { env with gen := (g, e) } "" (some ⟨some "", some chids⟩) =
        registerDevice { env with gen := (g, e) } "" true false :=
  ⟨rfl, rfl⟩

/-- Store for the C1 failing input: only the empty identifier is
reported as existing. -/
def helloEnvC1 : HelloEnv :=
  { storeExists := fun s => s == ""
    clientExists := fun _ => false
    idValid := fun _ => true
    gen := ("generated-id", false)
    maxChannels := 200
    helloStatus := 200
    writeOk := true }

/-- Claim C1 (code_bug): with no bound DeviceID, a well-formed
non-colliding suggested id "abc" that the Store reports as
nonexistent, and a non-empty channelIDs list within maxChannels, the
claim requires a forced reset; the code instead queries
`Store.Exists(sock.Uaid)` with the still-empty socket id (worker.go
line 367), finds it existing, and accepts "abc" without a reset. -/
theorem hello_exists_check_ignores_suggested_id :
    helloEnvC1.storeExists "abc" = false ∧
      0 < ([ "ch1" ] : List String).length ∧
      Hello helloEnvC1 "" (some ⟨some "abc", some ["ch1"]⟩) =
        .done { forceReset := false, droppedAll := false, uaid := "abc",
                routerNotified := true, replyStatus := 200, replyUaid := "abc",
                stateAfter := .WorkerActive, flushed := true, writeFailed := false } :=
  ⟨rfl, by decide, rfl⟩

/-- Once the `removeOnce` latch has fired, further `Close` calls never
decrement the count again. -/
theorem closeDecrements_after_latch (n : Nat) : closeDecrements n ⟨true⟩ = 0 := by
  induction n with
  | zero => rfl
  | succ n ih => simp [closeDecrements, LimitConn.close, ih]

/-- Claim C4: a successful `Accept` increments the active count
exactly once, and any positive number of `Close` calls on the returned
connection decrements it exactly once. -/
theorem accept_close_balanced (l : LimitListener) (u : Except Nat Unit) (c : LimitConn)
    (n : Nat) (hok : (l.accept u).outcome = .ok c) (hn : 1 ≤ n) :
    (l.accept u).state.conns = l.conns + 1 ∧ closeDecrements n c = 1 := by
  unfold LimitListener.accept at hok ⊢
  by_cases h1 : l.closeDone = true
  · simp [h1] at hok
  · by_cases h2 : l.maxConns ≤ l.connCount
    · simp [h1, h2] at hok
    · cases u with
      | error e => simp [h1, h2] at hok
      | ok _ =>
        simp [h1, h2, LimitListener.addConn] at hok ⊢
        obtain ⟨m, rfl⟩ : ∃ m, n = m + 1 := ⟨n - 1, by omega⟩
        rw [← hok]
        simp [closeDecrements, LimitConn.close, closeDecrements_after_latch]

/-- Witness for claim C4 at a concrete listener, connection, and
number of closes. -/
theorem accept_close_balanced_witness :
    (LimitListener.accept ⟨10, 3, false⟩ (.ok ())).state.conns = 3 + 1 ∧
      closeDecrements 5 ⟨false⟩ = 1 :=
  accept_close_balanced ⟨10, 3, false⟩ (.ok ()) ⟨false⟩ 5 (by decide) (by decide)

/-- Claim C5, counterexample: at a listener that is both closed and at
its connection ceiling, `Accept` returns the permanent closed error,
not the temporary too-busy error the claim requires whenever the count
is at the ceiling. -/
theorem accept_busy_not_returned_when_closed :
    (1 : Int) ≤ (LimitListener.mk 1 1 true).connCount ∧
      (LimitListener.accept ⟨1, 1, true⟩ (.ok ())).outcome = .err errClosed ∧
      (LimitListener.accept ⟨1, 1, true⟩ (.ok ())).outcome ≠ .err errTooBusy := by
  refine ⟨by decide, rfl, ?_⟩
  decide

/-- Claim C5, amended: when Close has not been observed and the count
is at or above MaxConns, `Accept` returns the temporary too-busy error
without touching the underlying listener; whenever Close has been
observed it returns the permanent closed error, also without touching
the underlying listener. -/
theorem accept_admission_errors (l : LimitListener) (u : Except Nat Unit) :
    (l.closeDone = false → l.maxConns ≤ l.connCount →
      l.accept u = ⟨.err errTooBusy, l, false⟩ ∧ errTooBusy.isTemporary = true) ∧
    (l.closeDone = true →
      l.accept u = ⟨.err errClosed, l, false⟩ ∧ errClosed.isTemporary = false) := by
  constructor
  · intro h1 h2
    refine ⟨?_, rfl⟩
    unfold LimitListener.accept
    rw [if_neg (by simp [h1]), if_pos h2]
  · intro h1
    refine ⟨?_, rfl⟩
    unfold LimitListener.accept
    rw [if_pos h1]

/-- Witness for claim C5's amended statement at a concrete saturated,
unclosed listener. -/
theorem accept_admission_errors_witness :
    LimitListener.accept ⟨2, 2, false⟩ (.ok ()) = ⟨.err errTooBusy, ⟨2, 2, false⟩, false⟩ :=
  ((accept_admission_errors ⟨2, 2, false⟩ (.ok ())).1 rfl (by decide)).1

/-- Claim C9: when Close has been observed, `Accept` returns the
permanent closed error even if the count is also at or above MaxConns:
the closed check takes precedence. -/
theorem accept_closed_wins (l : LimitListener) (u : Except Nat Unit)
    (h1 : l.closeDone = true) (h2 : l.maxConns ≤ l.connCount) :
    (l.accept u).outcome = .err errClosed ∧ errClosed.isTemporary = false := by
  unfold LimitListener.accept
  rw [if_pos h1]
  exact ⟨rfl, rfl⟩

/-- Witness for claim C9 at a concrete closed, saturated listener. -/
theorem accept_closed_wins_witness :
    (LimitListener.accept ⟨1, 5, true⟩ (.ok ())).outcome = .err errClosed ∧
      errClosed.isTemporary = false :=
  accept_closed_wins ⟨1, 5, true⟩ (.ok ()) rfl (by decide)

/-- Claim C7: `Ping` fails with too-many-pings and sets the stopped
flag exactly when the interval is positive, a previous ping exists,
and the elapsed time is below the interval; otherwise it records the
current time as `lastPing` (which therefore never decreases when time
does not run backwards) and replies with the long pong or the `{}`
echo according to configuration. -/
theorem ping_spec (pingInt : Int) (longPongs : Bool) (headerType : String)
    (st : PingState) (now : Int) :
    ((Ping pingInt longPongs headerType st now).error = some .tooManyPings ∧
        (Ping pingInt longPongs headerType st now).state.stopped = true ↔
      0 < pingInt ∧ ∃ t, st.lastPing = some t ∧ now - t < pingInt) ∧
    (pingTooSoon pingInt st.lastPing now = false →
      (Ping pingInt longPongs headerType st now).state.lastPing = some now ∧
      (Ping pingInt longPongs headerType st now).reply =
        some (if longPongs then .PingReply headerType 200 else .EmptyObject) ∧
      (Ping pingInt longPongs headerType st now).error = none) ∧
    (∀ t t', st.lastPing = some t → t ≤ now →
      (Ping pingInt longPongs headerType st now).state.lastPing = some t' → t ≤ t') := by
  refine ⟨⟨?_, ?_⟩, ?_, ?_⟩
  · intro hcon
    by_cases h : pingTooSoon pingInt st.lastPing now
    · exact (pingTooSoon_iff pingInt st.lastPing now).mp h
    · exfalso
      rw [Ping, if_neg (by simp [h])] at hcon
      exact absurd hcon.1 (by simp)
  · intro hcond
    have h : pingTooSoon pingInt st.lastPing now = true :=
      (pingTooSoon_iff pingInt st.lastPing now).mpr hcond
    rw [Ping, if_pos h]
    exact ⟨rfl, rfl⟩
  · intro h
    rw [Ping, if_neg (by simp [h])]
    exact ⟨rfl, rfl, rfl⟩
  · intro t t' hlp hle hlp'
    by_cases h : pingTooSoon pingInt st.lastPing now
    · rw [Ping, if_pos h] at hlp'
      simp only at hlp'
      rw [hlp] at hlp'
      exact le_of_eq (Option.some.inj hlp')
    · rw [Ping, if_neg (by simp [h])] at hlp'
      simp only at hlp'
      have hnow := Option.some.inj hlp'
      omega

/-- Witness for claim C7: a second ping 2 time units after the first
with a 5-unit minimum interval is rejected and stops the worker. -/
theorem ping_spec_witness :
    (Ping 5 true "ping" ⟨some 0, false⟩ 2).error = some .tooManyPings ∧
      (Ping 5 true "ping" ⟨some 0, false⟩ 2).state.stopped = true :=
  (ping_spec 5 true "ping" ⟨some 0, false⟩ 2).1.mpr ⟨by decide, 0, rfl, by decide⟩

end Pushgo
